import Mathlib

/-!
Shallow embedding of `backend/server.py` from the RU-Snoozing repository:
a Flask bridge with one POST handler (`gemini_response`, route `/gemini`)
and one GET handler (`get_latest`, route `/latest`) over a single mutable
interaction slot (`latest_interaction`).

External effects (the JSON body, the Gemini API call, the filesystem, the
environment and the spawned Node process) are modelled as an explicit
`PostWorld` record of their outcomes; the handler is then a pure function
of the world and the current slot, returning the HTTP response, the new
slot, and an `Effects` record of which externals it touched.
-/

namespace RUSnoozing

/-- A JSON value as produced by this server: every body field is either a
string or `null` (the slot fields start as Python `None`). -/
inductive JVal where
  | null : JVal
  | str : String → JVal
deriving DecidableEq, Repr

/-- An HTTP response: status code plus a flat JSON object body, modelled as
an association list in the order `jsonify` receives the keys. -/
structure HttpResponse where
  status : Nat
  body : List (String × JVal)
deriving DecidableEq, Repr

/-- Look a key up in a response body. -/
def bodyGet (r : HttpResponse) (k : String) : Option JVal :=
  (r.body.find? (fun p => p.1 == k)).map (fun p => p.2)

/-- The module-level slot `latest_interaction`, a dict with keys `text`
and `response`: both fields are `None` or a string. -/
structure LatestInteraction where
  text : Option String
  response : Option String
deriving DecidableEq, Repr

/-- Initial value of the slot at process start (both fields `None`). -/
def latest_interaction : LatestInteraction := ⟨none, none⟩

/-- Python `str.strip()` with no argument: drop leading and trailing
whitespace characters. Whitespace is modelled by `Char.isWhitespace`
(space, tab, CR, LF), which covers the inputs the claims mention. -/
def pyStrip (s : String) : String :=
  ⟨((s.data.dropWhile Char.isWhitespace).reverse.dropWhile Char.isWhitespace).reverse⟩

/-- Outcome of `subprocess.run` on the Node process: it either completed
with an exit code and captured stdout/stderr, hit the timeout
(`subprocess.TimeoutExpired`), or raised on launch. -/
inductive ProcResult where
  | completed : Int → String → String → ProcResult
  | timedOut : ProcResult
  | raised : String → ProcResult
deriving DecidableEq, Repr

/-- Everything the POST handler observes from outside in one request:
the `text` field of the JSON body (absent or a string), the outcome of
`model.generate_content(...).text` (`Except.error` models a raised
exception caught by the outer handler), the base directory computed from
`__file__`, `os.path.exists`, `shutil.which("node")`, `os.environ`, and
the outcome of the `subprocess.run` call were it reached. -/
structure PostWorld where
  textField : Option String
  geminiRaw : Except String String
  baseDir : String
  fsExists : String → Bool
  whichNode : Option String
  environ : String → Option String
  proc : ProcResult

/-- `os.path.join(base_dir, "src", "tts.js")`, with `base_dir` an absolute
path without trailing slash as `os.path.dirname` returns it. -/
def ttsPath (w : PostWorld) : String := w.baseDir ++ "/src/tts.js"

/-- The fixed fallback list of node locations tried when `shutil.which`
finds nothing. -/
def nodeFallbackPaths : List String :=
  ["/usr/local/bin/node", "/usr/bin/node", "/opt/homebrew/bin/node"]

/-- `node_exec = shutil.which("node")`, falling back to the first existing
candidate of the fixed list. -/
def resolveNode (w : PostWorld) : Option String :=
  match w.whichNode with
  | some p => some p
  | none => nodeFallbackPaths.find? w.fsExists

/-- `env = os.environ.copy(); env["ELEVENLABS_API_KEY"] =
os.getenv("ELEVENLABS_API_KEY", "")`: the copy of the parent environment
with the speech key bound to its parent value, or the empty string when
the parent lacks it. An environment is modelled as a lookup function. -/
def childEnv (w : PostWorld) : String → Option String :=
  fun k =>
    if k = "ELEVENLABS_API_KEY" then some ((w.environ "ELEVENLABS_API_KEY").getD "")
    else w.environ k

/-- The arguments of the `subprocess.run` call: executable, argument list
after the executable, the `timeout=60`, the `cwd`, and the `env`. -/
structure LaunchInfo where
  exe : String
  args : List String
  timeoutSecs : Nat
  cwd : String
  env : String → Option String

/-- Which externals a request touched: whether the Gemini model was called
and, when the Node process was launched, the launch arguments. -/
structure Effects where
  calledGemini : Bool
  launch : Option LaunchInfo

/-- `user_text = data.get("text", "").strip()`. -/
def userText (w : PostWorld) : String := pyStrip (w.textField.getD "")

/-- `gemini_output = response.text.strip()` on the success path (dummy
empty string when the model call raised and the value is never computed). -/
def geminiOut (w : PostWorld) : String :=
  match w.geminiRaw with
  | .ok raw => pyStrip raw
  | .error _ => ""

/-- The POST `/gemini` handler, translated clause for clause from
`server.py` lines 27 to 141: validate the text, call Gemini inside the
outer try, locate `tts.js` and a node executable, run the script with the
reply as its only argument, and on full success overwrite the slot and
return the four-field body. -/
def gemini_response (w : PostWorld) (st : LatestInteraction) :
    HttpResponse × LatestInteraction × Effects :=
  if userText w = "" then
    (⟨400, [("error", .str "No text provided")]⟩, st, ⟨false, none⟩)
  else
    match w.geminiRaw with
    | .error e => (⟨500, [("error", .str e)]⟩, st, ⟨true, none⟩)
    | .ok raw =>
      let gemini_output := pyStrip raw
      if w.fsExists (ttsPath w) then
        match resolveNode w with
        | none =>
            (⟨500, [("error", .str "Node.js not found. Install Node.js.")]⟩, st, ⟨true, none⟩)
        | some node_exec =>
          let info : LaunchInfo :=
            ⟨node_exec, [ttsPath w, gemini_output], 60, w.baseDir, childEnv w⟩
          match w.proc with
          | .completed rc _stdout stderr =>
            if rc ≠ 0 then
              (⟨500, [("error", .str "TTS generation failed"),
                      ("details", .str stderr)]⟩, st, ⟨true, some info⟩)
            else
              (⟨200, [("message", .str "✅ Received text successfully!"),
                      ("input", .str (userText w)),
                      ("response", .str gemini_output),
                      ("tts_status", .str "completed")]⟩,
               ⟨some (userText w), some gemini_output⟩, ⟨true, some info⟩)
          | .timedOut =>
              (⟨500, [("error", .str "TTS generation timed out")]⟩, st, ⟨true, some info⟩)
          | .raised e =>
              (⟨500, [("error", .str ("Failed to run TTS: " ++ e))]⟩, st, ⟨true, some info⟩)
      else
        (⟨500, [("error", .str ("tts.js not found at: " ++ ttsPath w))]⟩, st, ⟨true, none⟩)

/-- Serialize an optional string field as `jsonify` does. -/
def optJ : Option String → JVal
  | none => .null
  | some s => .str s

/-- The 404 body returned by `/latest` while the slot is untaken. -/
def noneYetResp : HttpResponse := ⟨404, [("message", .str "No previous interaction yet.")]⟩

/-- The GET `/latest` handler, `server.py` lines 144 to 148: 404 while
`latest_interaction["response"]` is falsy (Python `None` or the empty
string), otherwise the serialized slot. The handler does not mutate the
slot, so the returned state is the input state. -/
def get_latest (st : LatestInteraction) : HttpResponse × LatestInteraction :=
  if st.response.getD "" = "" then (noneYetResp, st)
  else (⟨200, [("text", optJ st.text), ("response", optJ st.response)]⟩, st)

/-- A request to the server, as far as the claims are concerned: a POST to
`/gemini` together with the external outcomes it observes, or a GET to
`/latest`. -/
inductive Request where
  | post : PostWorld → Request
  | getLatest : Request

/-- Dispatch one request against the current slot. -/
def step (st : LatestInteraction) (r : Request) : HttpResponse × LatestInteraction :=
  match r with
  | .post w => ((gemini_response w st).1, (gemini_response w st).2.1)
  | .getLatest => get_latest st

/-- Run a sequence of requests, threading the slot. -/
def runServer (st : LatestInteraction) (reqs : List Request) : LatestInteraction :=
  reqs.foldl (fun s r => (step s r).2) st

/-- A POST is successful when its HTTP response has status 200 (the
response is independent of the slot, so any slot value may be used). -/
def postSucceeds (w : PostWorld) : Prop :=
  (gemini_response w latest_interaction).1.status = 200

/-- An environment with both provider keys set, reused by the concrete
worlds below. -/
def sampleEnv : String → Option String :=
  fun k =>
    if k = "GOOGLE_API_KEY" then some "gkey"
    else if k = "ELEVENLABS_API_KEY" then some "ekey"
    else none

/-- Modelled from the spec: the synthesis script `tts.js` lives outside
`src/` and the spec treats it as an opaque external collaborator, so
where its generated audio lands is modelled from the launcher itself,
whose comment on the `subprocess.run` call (`cwd=base_dir`, set the
working directory for `output.mp3`) says the working directory is what
places the artifact: the artifact directory of a launch is its `cwd`. -/
def artifactDir (li : LaunchInfo) : String := li.cwd

/-- The directory holding the synthesis script: `os.path.dirname` of
`ttsPath`, namely the `src` subdirectory of the base directory. -/
def scriptDir (w : PostWorld) : String := w.baseDir ++ "/src"

/-- A fully successful request: text present, Gemini replies, `tts.js`
exists, node is on the path, the script exits 0. -/
def wOk : PostWorld :=
  ⟨some "pep talk", .ok " Stay awake now. ", "/app", fun _ => true,
   some "/usr/bin/node", sampleEnv, .completed 0 "done" ""⟩

/-- A successful request whose submitted text carries surrounding
whitespace. -/
def wOkSpaces : PostWorld :=
  ⟨some " pep talk ", .ok "Stay awake now.", "/app", fun _ => true,
   some "/usr/bin/node", sampleEnv, .completed 0 "done" ""⟩

/-- A request that succeeds end to end but whose Gemini reply strips to
the empty string. -/
def wEmptyOut : PostWorld :=
  ⟨some "pep talk", .ok "  ", "/app", fun _ => true,
   some "/usr/bin/node", sampleEnv, .completed 0 "done" ""⟩

/-- A request whose JSON body has no `text` field. -/
def wMissingText : PostWorld :=
  ⟨none, .ok "Stay awake now.", "/app", fun _ => true,
   some "/usr/bin/node", sampleEnv, .completed 0 "done" ""⟩

/-- A request whose `text` field is only whitespace. -/
def wWsText : PostWorld :=
  ⟨some "   ", .ok "Stay awake now.", "/app", fun _ => true,
   some "/usr/bin/node", sampleEnv, .completed 0 "done" ""⟩

/-- A request for which `tts.js` is missing from the filesystem. -/
def wNoTts : PostWorld :=
  ⟨some "pep talk", .ok "Stay awake now.", "/app", fun _ => false,
   some "/usr/bin/node", sampleEnv, .completed 0 "done" ""⟩

/-- A request for which `shutil.which` finds no node and only `tts.js`
exists on the filesystem, so every fallback candidate is absent. -/
def wNoNode : PostWorld :=
  ⟨some "pep talk", .ok "Stay awake now.", "/app", fun p => p == "/app/src/tts.js",
   none, sampleEnv, .completed 0 "done" ""⟩

/-- A request whose node script exits with a non-zero code. -/
def wBadExit : PostWorld :=
  ⟨some "pep talk", .ok "Stay awake now.", "/app", fun _ => true,
   some "/usr/bin/node", sampleEnv, .completed 1 "partial" "boom"⟩

/-- A request whose node script hits the 60 second timeout. -/
def wTimeout : PostWorld :=
  ⟨some "pep talk", .ok "Stay awake now.", "/app", fun _ => true,
   some "/usr/bin/node", sampleEnv, .timedOut⟩

/-- A request whose node launch itself raises. -/
def wRaised : PostWorld :=
  ⟨some "pep talk", .ok "Stay awake now.", "/app", fun _ => true,
   some "/usr/bin/node", sampleEnv, .raised "spawn failure"⟩

/-!  Helper lemmas about the handler branches and request sequences. -/

/-- The HTTP response of the POST handler does not depend on the slot. -/
theorem resp_state_indep (w : PostWorld) (st st2 : LatestInteraction) :
    (gemini_response w st).1 = (gemini_response w st2).1 := by
  unfold gemini_response
  repeat' split <;> try rfl

/-- The effects of the POST handler do not depend on the slot. -/
theorem effects_state_indep (w : PostWorld) (st st2 : LatestInteraction) :
    (gemini_response w st).2.2 = (gemini_response w st2).2.2 := by
  unfold gemini_response
  repeat' split <;> try rfl

/-- The POST handler either fails (non-200) and leaves the slot alone, or
succeeds with status 200 and overwrites the slot with the stripped input
and the stripped Gemini reply. -/
theorem slot_cases (w : PostWorld) (st : LatestInteraction) :
    ((gemini_response w st).1.status ≠ 200 ∧ (gemini_response w st).2.1 = st) ∨
    ((gemini_response w st).1.status = 200 ∧
      (gemini_response w st).2.1 = ⟨some (userText w), some (geminiOut w)⟩) := by
  unfold gemini_response
  repeat' split
  all_goals first
    | (left; exact ⟨by simp, rfl⟩)
    | (right; refine ⟨rfl, ?_⟩; simp only [geminiOut, *])

/-- On a 200 response the slot holds the stripped input and reply. -/
theorem slot_of_success (w : PostWorld) (st : LatestInteraction)
    (h : (gemini_response w st).1.status = 200) :
    (gemini_response w st).2.1 = ⟨some (userText w), some (geminiOut w)⟩ := by
  rcases slot_cases w st with ⟨hne, _⟩ | ⟨_, hs⟩
  · exact absurd h hne
  · exact hs

/-- On any non-200 response the slot is unchanged. -/
theorem slot_of_failure (w : PostWorld) (st : LatestInteraction)
    (h : (gemini_response w st).1.status ≠ 200) :
    (gemini_response w st).2.1 = st := by
  rcases slot_cases w st with ⟨_, hs⟩ | ⟨h200, _⟩
  · exact hs
  · exact absurd h200 h

/-- Success of a POST, read off at an arbitrary slot. -/
theorem postSucceeds_iff (w : PostWorld) (st : LatestInteraction) :
    postSucceeds w ↔ (gemini_response w st).1.status = 200 := by
  unfold postSucceeds
  rw [resp_state_indep w latest_interaction st]

/-- Running a request sequence unfolds one step at a time. -/
theorem run_cons (st : LatestInteraction) (r : Request) (reqs : List Request) :
    runServer st (r :: reqs) = runServer (step st r).2 reqs := rfl

/-- Running a concatenation runs the two halves in order. -/
theorem run_append (st : LatestInteraction) (l1 l2 : List Request) :
    runServer st (l1 ++ l2) = runServer (runServer st l1) l2 := by
  simp [runServer, List.foldl_append]

/-- A sequence with no successful POST leaves the slot untouched. -/
theorem run_no_success (reqs : List Request) (st : LatestInteraction)
    (h : ∀ w, Request.post w ∈ reqs → ¬ postSucceeds w) :
    runServer st reqs = st := by
  induction reqs generalizing st with
  | nil => rfl
  | cons r rest ih =>
    rw [run_cons]
    have hrest : ∀ w, Request.post w ∈ rest → ¬ postSucceeds w := by
      intro w hw
      exact h w (List.mem_cons_of_mem r hw)
    cases r with
    | getLatest =>
      have hg : (step st Request.getLatest).2 = st := by
        show (get_latest st).2 = st
        unfold get_latest
        split <;> rfl
      rw [hg]
      exact ih st hrest
    | post w =>
      have hw : ¬ postSucceeds w := h w (List.mem_cons_self _ _)
      have hne : (gemini_response w st).1.status ≠ 200 := by
        intro hc
        exact hw ((postSucceeds_iff w st).mpr hc)
      have hstep : (step st (Request.post w)).2 = st := slot_of_failure w st hne
      rw [hstep]
      exact ih st hrest

/-- The first element surviving `dropWhile` fails the predicate. -/
theorem dropWhile_head_not {α : Type} (p : α → Bool) (l : List α) (a : α)
    (h : (l.dropWhile p).head? = some a) : p a = false := by
  have hm := List.head?_dropWhile_not p l
  rw [h] at hm
  exact hm

/-- A list whose head fails the predicate is untouched by `dropWhile`. -/
theorem dropWhile_eq_self {α : Type} (p : α → Bool) (l : List α)
    (h : ∀ a, l.head? = some a → p a = false) : l.dropWhile p = l := by
  cases l with
  | nil => rfl
  | cons a t => simp [List.dropWhile_cons, h a rfl]

/-- The first character of a stripped string is not whitespace. -/
theorem pyStrip_head_not_ws (s : String) (c : Char)
    (h : (pyStrip s).data.head? = some c) : c.isWhitespace = false := by
  have h2 : (((s.data.dropWhile Char.isWhitespace).reverse.dropWhile
      Char.isWhitespace).reverse).head? = some c := h
  rw [List.head?_reverse] at h2
  obtain ⟨t, ht⟩ :=
    List.dropWhile_suffix (l := (s.data.dropWhile Char.isWhitespace).reverse) Char.isWhitespace
  have hx : ((s.data.dropWhile Char.isWhitespace).reverse).getLast? = some c := by
    rw [← ht, List.getLast?_append, h2, Option.or_some]
  rw [List.getLast?_reverse] at hx
  exact dropWhile_head_not _ _ _ hx

/-- The last character of a stripped string is not whitespace. -/
theorem pyStrip_getLast_not_ws (s : String) (c : Char)
    (h : (pyStrip s).data.getLast? = some c) : c.isWhitespace = false := by
  have h2 : (((s.data.dropWhile Char.isWhitespace).reverse.dropWhile
      Char.isWhitespace).reverse).getLast? = some c := h
  rw [List.getLast?_reverse] at h2
  exact dropWhile_head_not _ _ _ h2

/-- Stripping a string of whitespace characters only gives the empty
string. -/
theorem pyStrip_eq_empty_of_ws (t : String)
    (hws : ∀ c ∈ t.data, c.isWhitespace = true) : pyStrip t = "" := by
  unfold pyStrip
  rw [List.dropWhile_eq_nil_iff.mpr (fun c hc => hws c hc)]
  rfl

/-- The POST handler either fails (non-200) or returns exactly the
four-field success body built from the stripped input and reply. -/
theorem resp_cases (w : PostWorld) (st : LatestInteraction) :
    (gemini_response w st).1.status ≠ 200 ∨
    (gemini_response w st).1 =
      ⟨200, [("message", JVal.str "✅ Received text successfully!"),
             ("input", JVal.str (userText w)),
             ("response", JVal.str (geminiOut w)),
             ("tts_status", JVal.str "completed")]⟩ := by
  unfold gemini_response
  repeat' split
  all_goals first
    | (left; simp; done)
    | (right; simp only [geminiOut, *])

/-- On a 200 response the body is the four-field success body. -/
theorem resp_of_success (w : PostWorld) (st : LatestInteraction)
    (h : (gemini_response w st).1.status = 200) :
    (gemini_response w st).1 =
      ⟨200, [("message", JVal.str "✅ Received text successfully!"),
             ("input", JVal.str (userText w)),
             ("response", JVal.str (geminiOut w)),
             ("tts_status", JVal.str "completed")]⟩ := by
  rcases resp_cases w st with hne | he
  · exact absurd h hne
  · exact he

/-- Whenever the request passes validation, the model call, the script
check and the executable lookup, the recorded launch is the node
executable on the script path with the stripped reply as sole argument,
the 60 second timeout, the base directory as `cwd` and the child
environment, whatever the process outcome. -/
theorem launch_info_eq (w : PostWorld) (st : LatestInteraction)
    (raw node : String)
    (htext : userText w ≠ "") (hok : w.geminiRaw = Except.ok raw)
    (hfs : w.fsExists (ttsPath w) = true) (hnode : resolveNode w = some node) :
    (gemini_response w st).2.2.launch =
      some ⟨node, [ttsPath w, pyStrip raw], 60, w.baseDir, childEnv w⟩ := by
  cases hp : w.proc with
  | completed rc out err =>
    by_cases hrc : rc = 0 <;>
      simp [gemini_response, htext, hok, hfs, hnode, hp, hrc]
  | timedOut => simp [gemini_response, htext, hok, hfs, hnode, hp]
  | raised m => simp [gemini_response, htext, hok, hfs, hnode, hp]

/-!  Claim theorems. -/

/-- C10: GET `/latest` is read-only: handling it leaves the slot, both
fields included, unchanged. -/
theorem c10_get_latest_readonly (st : LatestInteraction) : (get_latest st).2 = st := by
  unfold get_latest
  split <;> rfl

/-- C2: a POST whose JSON body has an empty `text` field or no `text`
field at all gets the 400 error body and the Gemini model is never
called (nor is any process launched). -/
theorem c2_missing_or_empty_text_rejected (w : PostWorld) (st : LatestInteraction)
    (h : w.textField = none ∨ w.textField = some "") :
    (gemini_response w st).1 = ⟨400, [("error", JVal.str "No text provided")]⟩ ∧
    (gemini_response w st).2.2.calledGemini = false ∧
    (gemini_response w st).2.2.launch = none := by
  have hu : userText w = "" := by
    rcases h with h | h <;> (unfold userText; rw [h]; decide)
  unfold gemini_response
  rw [if_pos hu]
  exact ⟨rfl, rfl, rfl⟩

/-- C2 witness: the concrete body without a `text` field is rejected. -/
theorem c2_witness :
    (gemini_response wMissingText latest_interaction).1 =
      ⟨400, [("error", JVal.str "No text provided")]⟩ ∧
    (gemini_response wMissingText latest_interaction).2.2.calledGemini = false ∧
    (gemini_response wMissingText latest_interaction).2.2.launch = none :=
  c2_missing_or_empty_text_rejected wMissingText latest_interaction (Or.inl rfl)

/-- C9: a `text` field of whitespace characters only is treated exactly
like missing text (400, slot and effects untouched); on the success path
the input is stored and echoed stripped of surrounding whitespace, and a
stripped string never starts or ends with a whitespace character. -/
theorem c9_whitespace_text (w : PostWorld) (st : LatestInteraction) (t : String)
    (h : w.textField = some t) :
    ((∀ c ∈ t.data, c.isWhitespace = true) →
      gemini_response w st =
        (⟨400, [("error", JVal.str "No text provided")]⟩, st, ⟨false, none⟩)) ∧
    ((gemini_response w st).1.status = 200 →
      (gemini_response w st).1.body =
        [("message", JVal.str "✅ Received text successfully!"),
         ("input", JVal.str (pyStrip t)),
         ("response", JVal.str (geminiOut w)),
         ("tts_status", JVal.str "completed")] ∧
      (gemini_response w st).2.1.text = some (pyStrip t) ∧
      (∀ c, (pyStrip t).data.head? = some c → c.isWhitespace = false) ∧
      (∀ c, (pyStrip t).data.getLast? = some c → c.isWhitespace = false)) := by
  have hut : userText w = pyStrip t := by
    unfold userText
    rw [h]
    rfl
  constructor
  · intro hws
    have hu : userText w = "" := by
      rw [hut]
      exact pyStrip_eq_empty_of_ws t hws
    unfold gemini_response
    rw [if_pos hu]
  · intro h200
    refine ⟨?_, ?_, fun c hc => pyStrip_head_not_ws t c hc,
      fun c hc => pyStrip_getLast_not_ws t c hc⟩
    · rw [resp_of_success w st h200, ← hut]
    · rw [slot_of_success w st h200, ← hut]

/-- C9 witness: the concrete whitespace-only body is rejected like a
missing one. -/
theorem c9_witness :
    gemini_response wWsText latest_interaction =
      (⟨400, [("error", JVal.str "No text provided")]⟩, latest_interaction,
        ⟨false, none⟩) :=
  (c9_whitespace_text wWsText latest_interaction "   " rfl).1 (by decide)

/-- C1 counterexample: a POST whose Gemini reply strips to the empty
string completes with status 200 (a successful call), yet GET `/latest`
afterwards returns the 404 "none yet" response instead of that call's
input/response pair. -/
theorem c1_counterexample :
    (gemini_response wEmptyOut latest_interaction).1.status = 200 ∧
    (get_latest (runServer latest_interaction [Request.post wEmptyOut])).1 = noneYetResp ∧
    noneYetResp.status = 404 := ⟨rfl, rfl, rfl⟩

/-- C1 (amended): before any successful POST, GET `/latest` returns the
404 "none yet" response; after a successful POST whose stripped Gemini
reply is nonempty (and no later successful POST), GET `/latest` returns
exactly that call's input/response pair. A successful POST with an empty
stripped reply leaves `/latest` answering "none yet". -/
theorem c1_latest_tracks_last_success (reqs : List Request) :
    ((∀ w, Request.post w ∈ reqs → ¬ postSucceeds w) →
      (get_latest (runServer latest_interaction reqs)).1 = noneYetResp) ∧
    (∀ pre w rest, reqs = pre ++ Request.post w :: rest → postSucceeds w →
      geminiOut w ≠ "" →
      (∀ w2, Request.post w2 ∈ rest → ¬ postSucceeds w2) →
      (get_latest (runServer latest_interaction reqs)).1 =
        ⟨200, [("text", JVal.str (userText w)), ("response", JVal.str (geminiOut w))]⟩) := by
  constructor
  · intro h
    rw [run_no_success reqs latest_interaction h]
    rfl
  · intro pre w rest hreqs hsucc hne hrest
    subst hreqs
    rw [run_append, run_cons]
    have hst : (step (runServer latest_interaction pre) (Request.post w)).2 =
        ⟨some (userText w), some (geminiOut w)⟩ :=
      slot_of_success w _ ((postSucceeds_iff w _).mp hsucc)
    rw [hst, run_no_success rest _ hrest]
    simp [get_latest, optJ, hne]

/-- C1 witness: one fully successful POST, then GET `/latest` returns its
pair. -/
theorem c1_witness :
    (get_latest (runServer latest_interaction [Request.post wOk])).1 =
      ⟨200, [("text", JVal.str "pep talk"), ("response", JVal.str "Stay awake now.")]⟩ :=
  (c1_latest_tracks_last_success [Request.post wOk]).2 [] wOk [] rfl rfl
    (by decide) (fun w2 hw2 => absurd hw2 (List.not_mem_nil _))

/-- C3 counterexample: submit text with surrounding whitespace; the POST
succeeds but the `input` field holds the stripped text, not the text
string submitted in the request body. -/
theorem c3_counterexample :
    (gemini_response wOkSpaces latest_interaction).1.status = 200 ∧
    wOkSpaces.textField = some " pep talk " ∧
    bodyGet (gemini_response wOkSpaces latest_interaction).1 "input" =
      some (JVal.str "pep talk") ∧
    ("pep talk" : String) ≠ " pep talk " := by
  refine ⟨rfl, rfl, ?_, ?_⟩ <;> decide

/-- C3 (amended): a successful POST body has exactly the keys `message`,
`input`, `response` and `tts_status`, and `input` equals the submitted
text stripped of leading and trailing whitespace. -/
theorem c3_success_body (w : PostWorld) (st : LatestInteraction) (t : String)
    (ht : w.textField = some t)
    (h200 : (gemini_response w st).1.status = 200) :
    (gemini_response w st).1.body =
      [("message", JVal.str "✅ Received text successfully!"),
       ("input", JVal.str (pyStrip t)),
       ("response", JVal.str (geminiOut w)),
       ("tts_status", JVal.str "completed")] := by
  have hut : userText w = pyStrip t := by
    unfold userText
    rw [ht]
    rfl
  rw [resp_of_success w st h200, ← hut]

/-- C3 witness: the concrete request with padded text gets the four-field
body with the stripped input. -/
theorem c3_witness :
    (gemini_response wOkSpaces latest_interaction).1.body =
      [("message", JVal.str "✅ Received text successfully!"),
       ("input", JVal.str (pyStrip " pep talk ")),
       ("response", JVal.str (geminiOut wOkSpaces)),
       ("tts_status", JVal.str "completed")] :=
  c3_success_body wOkSpaces latest_interaction " pep talk " rfl rfl

/-- C4: when the model produced a reply but the synthesis step fails
(non-zero exit, timeout, or a launch exception), the handler returns a
500 response and the slot is left unchanged. -/
theorem c4_synth_failure (w : PostWorld) (st : LatestInteraction)
    (raw node : String)
    (htext : userText w ≠ "") (hok : w.geminiRaw = Except.ok raw)
    (hfs : w.fsExists (ttsPath w) = true) (hnode : resolveNode w = some node)
    (hfail : (∃ rc out err, w.proc = ProcResult.completed rc out err ∧ rc ≠ 0) ∨
      w.proc = ProcResult.timedOut ∨ (∃ m, w.proc = ProcResult.raised m)) :
    (gemini_response w st).1.status = 500 ∧ (gemini_response w st).2.1 = st := by
  rcases hfail with ⟨rc, out, err, hp, hrc⟩ | hp | ⟨m, hp⟩
  · simp [gemini_response, htext, hok, hfs, hnode, hp, hrc]
  · simp [gemini_response, htext, hok, hfs, hnode, hp]
  · simp [gemini_response, htext, hok, hfs, hnode, hp]

/-- C4 witness: the concrete non-zero-exit request gets a 500 and leaves
the slot as it was. -/
theorem c4_witness :
    (gemini_response wBadExit latest_interaction).1.status = 500 ∧
    (gemini_response wBadExit latest_interaction).2.1 = latest_interaction :=
  c4_synth_failure wBadExit latest_interaction "Stay awake now." "/usr/bin/node"
    (by decide) rfl rfl rfl (Or.inl ⟨1, "partial", "boom", rfl, by decide⟩)

/-- C5 counterexample: on timeout the handler answers with the fixed
one-field error body; it has no `details` field and carries none of the
captured stdout/stderr diagnostics the claim promises. -/
theorem c5_counterexample :
    (gemini_response wTimeout latest_interaction).2.2.launch.isSome = true ∧
    (gemini_response wTimeout latest_interaction).1 =
      ⟨500, [("error", JVal.str "TTS generation timed out")]⟩ ∧
    bodyGet (gemini_response wTimeout latest_interaction).1 "details" = none := by
  refine ⟨rfl, rfl, ?_⟩
  decide

/-- C5 (amended): every launch runs the script with the stripped reply as
its sole argument under the fixed 60 second wait bound; a non-zero exit
yields a 500 whose `details` field carries the captured stderr, while a
timeout yields a 500 with a fixed message and no captured output. -/
theorem c5_launch_contract (w : PostWorld) (st : LatestInteraction)
    (raw node : String)
    (htext : userText w ≠ "") (hok : w.geminiRaw = Except.ok raw)
    (hfs : w.fsExists (ttsPath w) = true) (hnode : resolveNode w = some node) :
    (gemini_response w st).2.2.launch =
      some ⟨node, [ttsPath w, pyStrip raw], 60, w.baseDir, childEnv w⟩ ∧
    (∀ rc out err, w.proc = ProcResult.completed rc out err → rc ≠ 0 →
      (gemini_response w st).1 =
        ⟨500, [("error", JVal.str "TTS generation failed"),
               ("details", JVal.str err)]⟩) ∧
    (w.proc = ProcResult.timedOut →
      (gemini_response w st).1 =
        ⟨500, [("error", JVal.str "TTS generation timed out")]⟩) := by
  refine ⟨launch_info_eq w st raw node htext hok hfs hnode, ?_, ?_⟩
  · intro rc out err hp hrc
    simp [gemini_response, htext, hok, hfs, hnode, hp, hrc]
  · intro hp
    simp [gemini_response, htext, hok, hfs, hnode, hp]

/-- C5 witness: the concrete timed-out request gets the fixed timeout
body. -/
theorem c5_witness :
    (gemini_response wTimeout latest_interaction).1 =
      ⟨500, [("error", JVal.str "TTS generation timed out")]⟩ :=
  (c5_launch_contract wTimeout latest_interaction "Stay awake now." "/usr/bin/node"
    (by decide) rfl rfl rfl).2.2 rfl

/-- C6: when the resolved `tts.js` path does not exist, the handler
returns a 500 whose error message names the missing path, and no process
is launched. -/
theorem c6_missing_tts (w : PostWorld) (st : LatestInteraction) (raw : String)
    (htext : userText w ≠ "") (hok : w.geminiRaw = Except.ok raw)
    (hfs : w.fsExists (ttsPath w) = false) :
    (gemini_response w st).1 =
      ⟨500, [("error", JVal.str ("tts.js not found at: " ++ ttsPath w))]⟩ ∧
    (gemini_response w st).2.2.launch = none := by
  simp [gemini_response, htext, hok, hfs]

/-- C6 witness: with `tts.js` absent the concrete request is answered 500
naming `/app/src/tts.js`, and no launch happens. -/
theorem c6_witness :
    ttsPath wNoTts = "/app/src/tts.js" ∧
    ((gemini_response wNoTts latest_interaction).1 =
      ⟨500, [("error", JVal.str ("tts.js not found at: " ++ ttsPath wNoTts))]⟩ ∧
     (gemini_response wNoTts latest_interaction).2.2.launch = none) :=
  ⟨rfl, c6_missing_tts wNoTts latest_interaction "Stay awake now." (by decide) rfl rfl⟩

/-- C7: when `shutil.which` finds no node and none of the fixed fallback
candidates exists, the handler returns a 500 naming the missing
dependency (Node.js), and no process is launched. -/
theorem c7_missing_node (w : PostWorld) (st : LatestInteraction) (raw : String)
    (htext : userText w ≠ "") (hok : w.geminiRaw = Except.ok raw)
    (hfs : w.fsExists (ttsPath w) = true) (hwhich : w.whichNode = none)
    (hcand : ∀ c ∈ nodeFallbackPaths, w.fsExists c = false) :
    (gemini_response w st).1 =
      ⟨500, [("error", JVal.str "Node.js not found. Install Node.js.")]⟩ ∧
    (gemini_response w st).2.2.launch = none := by
  have hres : resolveNode w = none := by
    unfold resolveNode
    rw [hwhich]
    refine List.find?_eq_none.mpr ?_
    intro c hc
    simp [hcand c hc]
  simp [gemini_response, htext, hok, hfs, hres]

/-- C7 witness: the concrete request with node nowhere to be found gets
the 500 naming Node.js and no launch. -/
theorem c7_witness :
    (gemini_response wNoNode latest_interaction).1 =
      ⟨500, [("error", JVal.str "Node.js not found. Install Node.js.")]⟩ ∧
    (gemini_response wNoNode latest_interaction).2.2.launch = none :=
  c7_missing_node wNoNode latest_interaction "Stay awake now." (by decide) rfl rfl rfl
    (by decide)

/-- C8 counterexample: the launched child runs with its working directory
set to the base directory, while the script sits in the `src`
subdirectory; under the artifact model taken from the launcher comment,
the generated audio lands in the base directory, not beside the script. -/
theorem c8_counterexample :
    (gemini_response wOk latest_interaction).2.2.launch.map artifactDir = some "/app" ∧
    scriptDir wOk = "/app/src" ∧
    (gemini_response wOk latest_interaction).2.2.launch.map artifactDir ≠
      some (scriptDir wOk) := by
  refine ⟨rfl, rfl, ?_⟩
  decide

/-- C8 (amended): the child environment always binds the speech key
(to the parent value, or the empty string when unset), every other
variable of the parent environment is passed through unchanged, and the
working directory is set to the base directory, the parent of the script
directory, where the audio artifact lands under the launcher comment
model. -/
theorem c8_child_env_and_cwd (w : PostWorld) (st : LatestInteraction)
    (raw node : String)
    (htext : userText w ≠ "") (hok : w.geminiRaw = Except.ok raw)
    (hfs : w.fsExists (ttsPath w) = true) (hnode : resolveNode w = some node) :
    (gemini_response w st).2.2.launch =
      some ⟨node, [ttsPath w, pyStrip raw], 60, w.baseDir, childEnv w⟩ ∧
    childEnv w "ELEVENLABS_API_KEY" = some ((w.environ "ELEVENLABS_API_KEY").getD "") ∧
    (∀ k, k ≠ "ELEVENLABS_API_KEY" → childEnv w k = w.environ k) ∧
    artifactDir ⟨node, [ttsPath w, pyStrip raw], 60, w.baseDir, childEnv w⟩ =
      w.baseDir ∧
    scriptDir w = w.baseDir ++ "/src" := by
  refine ⟨?_, by simp [childEnv], fun k hk => by simp [childEnv, hk], rfl, rfl⟩
  exact launch_info_eq w st raw node htext hok hfs hnode

/-- C8 witness: for the concrete successful request, the child
environment holds both keys and the working directory is `/app`. -/
theorem c8_witness :
    (gemini_response wOk latest_interaction).2.2.launch =
      some ⟨"/usr/bin/node", [ttsPath wOk, pyStrip " Stay awake now. "], 60,
        wOk.baseDir, childEnv wOk⟩ ∧
    childEnv wOk "ELEVENLABS_API_KEY" = some ((wOk.environ "ELEVENLABS_API_KEY").getD "") ∧
    (∀ k, k ≠ "ELEVENLABS_API_KEY" → childEnv wOk k = wOk.environ k) ∧
    artifactDir ⟨"/usr/bin/node", [ttsPath wOk, pyStrip " Stay awake now. "], 60,
      wOk.baseDir, childEnv wOk⟩ = wOk.baseDir ∧
    scriptDir wOk = wOk.baseDir ++ "/src" :=
  c8_child_env_and_cwd wOk latest_interaction " Stay awake now. " "/usr/bin/node"
    (by decide) rfl rfl rfl

end RUSnoozing
